import Mathlib

/-!
Verification of the mycelium growth-energy estimator
(`src/growth_energy_sim.py`, function `simulate_growth_energy`).

The Python function is a closed-form arithmetic calculator over IEEE
doubles.  We embed it shallowly over `ℚ`: every Python float is a rational
number, all arithmetic in the program is field arithmetic plus `abs`, and
every concrete value appearing in the specification's scenarios is produced
exactly (without rounding) by the binary64 evaluation as well, so the
rational model and the float program agree on all of them.  The substrate
density is kept as a `String`, exactly as in the source (a string key into
a dict), and the single failure mode (`ValueError` for an unknown key) is
modelled with `Except String`.
-/

/-- Key string for the low substrate density, as in the source dict. -/
def lowKey : String := "low"

/-- Key string for the medium substrate density, as in the source dict. -/
def mediumKey : String := "medium"

/-- Key string for the high substrate density, as in the source dict. -/
def highKey : String := "high"

/-- Constant `BASE_ENERGY_PER_DAY = 10.0` from the source. -/
def BASE_ENERGY_PER_DAY : ℚ := 10.0

/-- Constant `CLIMATE_CONTROL_COEFF = 0.5` from the source. -/
def CLIMATE_CONTROL_COEFF : ℚ := 0.5

/-- Constant `IDEAL_TEMPERATURE = 25.0` from the source. -/
def IDEAL_TEMPERATURE : ℚ := 25.0

/-- Lookup of the `density_factors` dict of the source: maps a density key
to the pair `(duration_factor, climate_factor)`, or `none` when the key is
not one of the three entries. -/
def density_factors (substrate_density : String) : Option (ℚ × ℚ) :=
  if substrate_density = lowKey then some (0.8, 0.9)
  else if substrate_density = mediumKey then some (1.0, 1.0)
  else if substrate_density = highKey then some (1.3, 1.2)
  else none

/-- Error message of the `ValueError` raised by the source for an unknown
density key: the f-string renders the dict keys as a Python list literal.
(The apostrophes of the Python list repr are written as hex escapes.) -/
def errMsg : String := "substrate_density must be one of [\x27low\x27, \x27medium\x27, \x27high\x27]"

/-- Result dict of `simulate_growth_energy`, as an immutable record with
the seven returned fields. -/
structure GrowthEnergyResult where
  total_energy_kWh : ℚ
  base_energy_kWh : ℚ
  climate_control_energy_kWh : ℚ
  growth_duration_days : ℚ
  adjusted_growth_duration_days : ℚ
  temperature_celsius : ℚ
  substrate_density : String
deriving Repr, DecidableEq

/-- Line 43 of the source: `temp_diff = abs(temperature_celsius - IDEAL_TEMPERATURE)`. -/
def temp_diff (temperature_celsius : ℚ) : ℚ :=
  |temperature_celsius - IDEAL_TEMPERATURE|

/-- Line 44 of the source:
`effective_climate_coeff = CLIMATE_CONTROL_COEFF * climate_factor`. -/
def effective_climate_coeff (climate_factor : ℚ) : ℚ :=
  CLIMATE_CONTROL_COEFF * climate_factor

/-- Shallow embedding of `simulate_growth_energy` (source lines 8-60):
looks up the density factors, raises `ValueError` (modelled as
`Except.error`) when the key is unknown, and otherwise computes the energy
breakdown exactly as the source does, line for line. -/
def simulate_growth_energy (growth_duration_days temperature_celsius : ℚ)
    (substrate_density : String) : Except String GrowthEnergyResult :=
  match density_factors substrate_density with
  | none => Except.error errMsg
  | some (duration_factor, climate_factor) =>
      let adjusted_growth_duration := growth_duration_days * duration_factor
      let td := temp_diff temperature_celsius
      let ecc := effective_climate_coeff climate_factor
      let climate_control_energy := ecc * td * adjusted_growth_duration
      let base_energy := BASE_ENERGY_PER_DAY * adjusted_growth_duration
      let total_energy := base_energy + climate_control_energy
      Except.ok
        { total_energy_kWh := total_energy
          base_energy_kWh := base_energy
          climate_control_energy_kWh := climate_control_energy
          growth_duration_days := growth_duration_days
          adjusted_growth_duration_days := adjusted_growth_duration
          temperature_celsius := temperature_celsius
          substrate_density := substrate_density }

/-- Whether a call produced a `GrowthEnergyResult` (rather than an error). -/
def producesResult (x : Except String GrowthEnergyResult) : Bool :=
  match x with
  | Except.ok _ => true
  | Except.error _ => false

/-- Whether the first character list starts with the second one. -/
def listHasPre : List Char → List Char → Bool
  | _, [] => true
  | [], _ :: _ => false
  | a :: s, b :: t => a == b && listHasPre s t

/-- Whether the second character list occurs contiguously in the first. -/
def listContainsSub : List Char → List Char → Bool
  | [], needle => listHasPre [] needle
  | a :: t, needle => listHasPre (a :: t) needle || listContainsSub t needle

/-- Whether `needle` occurs as a contiguous substring of `hay`. -/
def strContains (hay needle : String) : Bool :=
  listContainsSub hay.data needle.data

/-- Evaluation of the estimator on the low density key. -/
theorem simGE_low_eval (d t : ℚ) :
    simulate_growth_energy d t lowKey = Except.ok
      { total_energy_kWh := 10.0 * (d * 0.8) + 0.5 * 0.9 * |t - 25.0| * (d * 0.8)
        base_energy_kWh := 10.0 * (d * 0.8)
        climate_control_energy_kWh := 0.5 * 0.9 * |t - 25.0| * (d * 0.8)
        growth_duration_days := d
        adjusted_growth_duration_days := d * 0.8
        temperature_celsius := t
        substrate_density := lowKey } := by
  simp [simulate_growth_energy, density_factors, temp_diff, effective_climate_coeff,
    BASE_ENERGY_PER_DAY, CLIMATE_CONTROL_COEFF, IDEAL_TEMPERATURE, lowKey, mediumKey, highKey]

/-- Evaluation of the estimator on the medium density key. -/
theorem simGE_medium_eval (d t : ℚ) :
    simulate_growth_energy d t mediumKey = Except.ok
      { total_energy_kWh := 10.0 * (d * 1.0) + 0.5 * 1.0 * |t - 25.0| * (d * 1.0)
        base_energy_kWh := 10.0 * (d * 1.0)
        climate_control_energy_kWh := 0.5 * 1.0 * |t - 25.0| * (d * 1.0)
        growth_duration_days := d
        adjusted_growth_duration_days := d * 1.0
        temperature_celsius := t
        substrate_density := mediumKey } := by
  simp [simulate_growth_energy, density_factors, temp_diff, effective_climate_coeff,
    BASE_ENERGY_PER_DAY, CLIMATE_CONTROL_COEFF, IDEAL_TEMPERATURE, lowKey, mediumKey, highKey]

/-- Evaluation of the estimator on the high density key. -/
theorem simGE_high_eval (d t : ℚ) :
    simulate_growth_energy d t highKey = Except.ok
      { total_energy_kWh := 10.0 * (d * 1.3) + 0.5 * 1.2 * |t - 25.0| * (d * 1.3)
        base_energy_kWh := 10.0 * (d * 1.3)
        climate_control_energy_kWh := 0.5 * 1.2 * |t - 25.0| * (d * 1.3)
        growth_duration_days := d
        adjusted_growth_duration_days := d * 1.3
        temperature_celsius := t
        substrate_density := highKey } := by
  simp [simulate_growth_energy, density_factors, temp_diff, effective_climate_coeff,
    BASE_ENERGY_PER_DAY, CLIMATE_CONTROL_COEFF, IDEAL_TEMPERATURE, lowKey, mediumKey, highKey]

/-- Evaluation of the estimator on any key other than the three valid ones. -/
theorem simGE_invalid_eval (d t : ℚ) (s : String) (h1 : s ≠ lowKey)
    (h2 : s ≠ mediumKey) (h3 : s ≠ highKey) :
    simulate_growth_energy d t s = Except.error errMsg := by
  simp [simulate_growth_energy, density_factors, h1, h2, h3]

/-- Claim C1: for every duration, temperature and valid density, the
returned result satisfies
`total_energy_kWh = base_energy_kWh + climate_control_energy_kWh` exactly
(the source stores the literal sum of the two other fields; this holds
under any deterministic arithmetic, IEEE binary64 included). -/
theorem C1_total_is_sum (d t : ℚ) (s : String) (r : GrowthEnergyResult)
    (h : simulate_growth_energy d t s = Except.ok r) :
    r.total_energy_kWh = r.base_energy_kWh + r.climate_control_energy_kWh := by
  unfold simulate_growth_energy at h
  split at h
  · exact Except.noConfusion h
  · injection h with h
    subst h
    rfl

/-- Result of `simulate_growth_energy 10 30 high`. -/
def resHigh169 : GrowthEnergyResult :=
  { total_energy_kWh := 169
    base_energy_kWh := 130
    climate_control_energy_kWh := 39
    growth_duration_days := 10
    adjusted_growth_duration_days := 13
    temperature_celsius := 30
    substrate_density := highKey }

/-- Concrete high-density evaluation used by several witnesses. -/
theorem simGE_high_concrete : simulate_growth_energy 10 30 highKey = Except.ok resHigh169 := by
  rw [simGE_high_eval]
  norm_num [resHigh169]

/-- Witness for C1 at the concrete input `(10, 30, high)`. -/
theorem C1_total_is_sum_witness :
    simulate_growth_energy 10 30 highKey = Except.ok resHigh169 ∧
    resHigh169.total_energy_kWh = resHigh169.base_energy_kWh + resHigh169.climate_control_energy_kWh :=
  ⟨simGE_high_concrete, C1_total_is_sum 10 30 highKey resHigh169 simGE_high_concrete⟩

/-- Claim C2: the concrete scenario `estimate(10.0, 30.0, high)` returns
`adjusted_growth_duration_days = 13`, `climate_control_energy_kWh = 39`,
`base_energy_kWh = 130`, `total_energy_kWh = 169`, with intermediates
`temp_diff = 5` and `effective_climate_coeff = 0.6`.  The rational model
produces exactly these values, and binary64 evaluation of the source
produces the same doubles (each intermediate rounds to the exact value). -/
theorem C2_concrete_high_scenario :
    simulate_growth_energy 10 30 highKey = Except.ok resHigh169 ∧
    resHigh169.adjusted_growth_duration_days = 13 ∧
    resHigh169.climate_control_energy_kWh = 39 ∧
    resHigh169.base_energy_kWh = 130 ∧
    resHigh169.total_energy_kWh = 169 ∧
    temp_diff 30 = 5 ∧
    effective_climate_coeff 1.2 = 0.6 := by
  refine ⟨simGE_high_concrete, rfl, rfl, rfl, rfl, ?_, ?_⟩
  · rw [temp_diff, IDEAL_TEMPERATURE]
    norm_num
  · rw [effective_climate_coeff, CLIMATE_CONTROL_COEFF]
    norm_num

/-- Claim C3: the call fails exactly when the density key is not one of
the three valid ones, and succeeds with a result for every other input
(no bounds checks on duration or temperature). -/
theorem C3_error_iff_invalid (d t : ℚ) (s : String) :
    ((∃ e, simulate_growth_energy d t s = Except.error e) ↔
      ¬ (s = lowKey ∨ s = mediumKey ∨ s = highKey)) ∧
    ((∃ r, simulate_growth_energy d t s = Except.ok r) ↔
      (s = lowKey ∨ s = mediumKey ∨ s = highKey)) := by
  by_cases h1 : s = lowKey
  · subst h1
    simp [simGE_low_eval]
  · by_cases h2 : s = mediumKey
    · subst h2
      simp [simGE_medium_eval]
    · by_cases h3 : s = highKey
      · subst h3
        simp [simGE_high_eval]
      · simp [simGE_invalid_eval d t s h1 h2 h3, h1, h2, h3]

/-- Unrecognized density key used in the spec's example. -/
def extremeKey : String := "extreme"

/-- Counterexample for claim C4: at input `(1, 1, extreme)` the call does
raise the error, but the error message is the fixed string listing the
valid keys, and the offending value does not occur in it as a substring:
the source f-string interpolates only `list(density_factors.keys())`, never
the offending value, so the message does not identify it. -/
theorem C4_counterexample :
    simulate_growth_energy 1 1 extremeKey = Except.error errMsg ∧
    strContains errMsg extremeKey = false := by
  constructor
  · exact simGE_invalid_eval 1 1 extremeKey (by decide) (by decide) (by decide)
  · decide

/-- Claim C4 as amended: an unrecognized density value (e.g. `extreme`)
raises the InvalidArgument error, whose message lists the three valid
variant names (but does not contain the offending value), and no
`GrowthEnergyResult` is produced. -/
theorem C4_error_lists_variants (d t : ℚ) :
    simulate_growth_energy d t extremeKey = Except.error errMsg ∧
    strContains errMsg lowKey = true ∧
    strContains errMsg mediumKey = true ∧
    strContains errMsg highKey = true ∧
    producesResult (simulate_growth_energy d t extremeKey) = false := by
  have h : simulate_growth_energy d t extremeKey = Except.error errMsg :=
    simGE_invalid_eval d t extremeKey (by decide) (by decide) (by decide)
  refine ⟨h, by decide, by decide, by decide, ?_⟩
  rw [h]
  rfl

/-- Result of `simulate_growth_energy (-10) 30 high`. -/
def resHighNeg : GrowthEnergyResult :=
  { total_energy_kWh := -169
    base_energy_kWh := -130
    climate_control_energy_kWh := -39
    growth_duration_days := -10
    adjusted_growth_duration_days := -13
    temperature_celsius := 30
    substrate_density := highKey }

/-- Result of `simulate_growth_energy (-10) 30 medium`. -/
def resMediumNeg : GrowthEnergyResult :=
  { total_energy_kWh := -125
    base_energy_kWh := -100
    climate_control_energy_kWh := -25
    growth_duration_days := -10
    adjusted_growth_duration_days := -10
    temperature_celsius := 30
    substrate_density := mediumKey }

/-- Counterexample for claim C5: the source performs no bounds check on
the duration, and at `growth_duration_days = -10`, `temperature = 30` the
climate-control energy for High (`-39`) is strictly BELOW that for Medium
(`-25`), refuting High ≥ Medium at this fixed input pair. -/
theorem C5_counterexample :
    simulate_growth_energy (-10) 30 highKey = Except.ok resHighNeg ∧
    simulate_growth_energy (-10) 30 mediumKey = Except.ok resMediumNeg ∧
    resHighNeg.climate_control_energy_kWh < resMediumNeg.climate_control_energy_kWh := by
  refine ⟨?_, ?_, ?_⟩
  · rw [simGE_high_eval]
    norm_num [resHighNeg]
  · rw [simGE_medium_eval]
    norm_num [resMediumNeg]
  · norm_num [resHighNeg, resMediumNeg]

/-- Claim C5 as amended: for every fixed pair with NON-NEGATIVE
`growth_duration_days` and any temperature, the climate-control energy for
High density is at least that for Medium, which is at least that for Low. -/
theorem C5_monotone_nonneg (d t : ℚ) (rl rm rh : GrowthEnergyResult)
    (hd : 0 ≤ d)
    (hl : simulate_growth_energy d t lowKey = Except.ok rl)
    (hm : simulate_growth_energy d t mediumKey = Except.ok rm)
    (hh : simulate_growth_energy d t highKey = Except.ok rh) :
    rm.climate_control_energy_kWh ≤ rh.climate_control_energy_kWh ∧
    rl.climate_control_energy_kWh ≤ rm.climate_control_energy_kWh := by
  rw [simGE_low_eval] at hl
  rw [simGE_medium_eval] at hm
  rw [simGE_high_eval] at hh
  injection hl with hl
  injection hm with hm
  injection hh with hh
  subst hl
  subst hm
  subst hh
  have ha : (0:ℚ) ≤ |t - 25.0| := abs_nonneg _
  have had : (0:ℚ) ≤ |t - 25.0| * d := mul_nonneg ha hd
  constructor
  · show 0.5 * 1.0 * |t - 25.0| * (d * 1.0) ≤ 0.5 * 1.2 * |t - 25.0| * (d * 1.3)
    nlinarith [had]
  · show 0.5 * 0.9 * |t - 25.0| * (d * 0.8) ≤ 0.5 * 1.0 * |t - 25.0| * (d * 1.0)
    nlinarith [had]

/-- Result of `simulate_growth_energy 10 30 low`. -/
def resLow98 : GrowthEnergyResult :=
  { total_energy_kWh := 98
    base_energy_kWh := 80
    climate_control_energy_kWh := 18
    growth_duration_days := 10
    adjusted_growth_duration_days := 8
    temperature_celsius := 30
    substrate_density := lowKey }

/-- Result of `simulate_growth_energy 10 30 medium`. -/
def resMedium125 : GrowthEnergyResult :=
  { total_energy_kWh := 125
    base_energy_kWh := 100
    climate_control_energy_kWh := 25
    growth_duration_days := 10
    adjusted_growth_duration_days := 10
    temperature_celsius := 30
    substrate_density := mediumKey }

/-- Concrete low-density evaluation used by witnesses. -/
theorem simGE_low_concrete : simulate_growth_energy 10 30 lowKey = Except.ok resLow98 := by
  rw [simGE_low_eval]
  norm_num [resLow98]

/-- Concrete medium-density evaluation used by witnesses. -/
theorem simGE_medium_concrete :
    simulate_growth_energy 10 30 mediumKey = Except.ok resMedium125 := by
  rw [simGE_medium_eval]
  norm_num [resMedium125]

/-- Witness for the amended C5 at the concrete input `(10, 30)`:
climate-control energies are 18 (low) ≤ 25 (medium) ≤ 39 (high). -/
theorem C5_monotone_nonneg_witness :
    (0:ℚ) ≤ 10 ∧
    simulate_growth_energy 10 30 lowKey = Except.ok resLow98 ∧
    simulate_growth_energy 10 30 mediumKey = Except.ok resMedium125 ∧
    simulate_growth_energy 10 30 highKey = Except.ok resHigh169 ∧
    (resMedium125.climate_control_energy_kWh ≤ resHigh169.climate_control_energy_kWh ∧
     resLow98.climate_control_energy_kWh ≤ resMedium125.climate_control_energy_kWh) :=
  ⟨by norm_num, simGE_low_concrete, simGE_medium_concrete, simGE_high_concrete,
    C5_monotone_nonneg 10 30 resLow98 resMedium125 resHigh169 (by norm_num)
      simGE_low_concrete simGE_medium_concrete simGE_high_concrete⟩

/-- Claim C6: at the ideal temperature 25 the returned climate-control
energy is exactly 0, for every density and duration. -/
theorem C6_ideal_temp_zero_climate (d : ℚ) (s : String) (r : GrowthEnergyResult)
    (h : simulate_growth_energy d 25 s = Except.ok r) :
    r.climate_control_energy_kWh = 0 := by
  by_cases h1 : s = lowKey
  · subst h1
    rw [simGE_low_eval] at h
    injection h with h
    subst h
    norm_num
  · by_cases h2 : s = mediumKey
    · subst h2
      rw [simGE_medium_eval] at h
      injection h with h
      subst h
      norm_num
    · by_cases h3 : s = highKey
      · subst h3
        rw [simGE_high_eval] at h
        injection h with h
        subst h
        norm_num
      · rw [simGE_invalid_eval d 25 s h1 h2 h3] at h
        exact Except.noConfusion h

/-- Result of `simulate_growth_energy 1 25 medium`. -/
def resIdeal : GrowthEnergyResult :=
  { total_energy_kWh := 10
    base_energy_kWh := 10
    climate_control_energy_kWh := 0
    growth_duration_days := 1
    adjusted_growth_duration_days := 1
    temperature_celsius := 25
    substrate_density := mediumKey }

/-- Concrete ideal-temperature evaluation used by the C6 witness. -/
theorem simGE_ideal_concrete : simulate_growth_energy 1 25 mediumKey = Except.ok resIdeal := by
  rw [simGE_medium_eval]
  norm_num [resIdeal]

/-- Witness for C6 at the concrete input `(1, 25, medium)`. -/
theorem C6_ideal_temp_zero_climate_witness :
    simulate_growth_energy 1 25 mediumKey = Except.ok resIdeal ∧
    resIdeal.climate_control_energy_kWh = 0 :=
  ⟨simGE_ideal_concrete, C6_ideal_temp_zero_climate 1 mediumKey resIdeal simGE_ideal_concrete⟩

/-- Claim C7: for density Medium the adjusted duration equals the input
duration for every input pair (duration_factor is 1.0). -/
theorem C7_medium_identity (d t : ℚ) (r : GrowthEnergyResult)
    (h : simulate_growth_energy d t mediumKey = Except.ok r) :
    r.adjusted_growth_duration_days = d := by
  rw [simGE_medium_eval] at h
  injection h with h
  subst h
  norm_num

/-- Witness for C7 at the concrete input `(10, 30, medium)`. -/
theorem C7_medium_identity_witness :
    simulate_growth_energy 10 30 mediumKey = Except.ok resMedium125 ∧
    resMedium125.adjusted_growth_duration_days = 10 :=
  ⟨simGE_medium_concrete, C7_medium_identity 10 30 resMedium125 simGE_medium_concrete⟩

/-- Claim C8: the estimator is deterministic — two calls on equal inputs
return equal values.  (The embedding is a pure function; the source
likewise reads only its arguments and local constants and writes no
external state.) -/
theorem C8_deterministic (d1 t1 : ℚ) (s1 : String) (d2 t2 : ℚ) (s2 : String)
    (hd : d1 = d2) (ht : t1 = t2) (hs : s1 = s2) :
    simulate_growth_energy d1 t1 s1 = simulate_growth_energy d2 t2 s2 := by
  subst hd
  subst ht
  subst hs
  rfl

/-- Witness for C8 at the concrete input `(10, 30, medium)` twice. -/
theorem C8_deterministic_witness :
    (10:ℚ) = 10 ∧ (30:ℚ) = 30 ∧ mediumKey = mediumKey ∧
    simulate_growth_energy 10 30 mediumKey = simulate_growth_energy 10 30 mediumKey :=
  ⟨rfl, rfl, rfl, C8_deterministic 10 30 mediumKey 10 30 mediumKey rfl rfl rfl⟩

/-- Capitalized spelling of the medium variant, as written in the spec. -/
def capMediumKey : String := "Medium"

/-- Capitalized spelling of the high variant, as written in the spec. -/
def capHighKey : String := "High"

/-- Claim C9: density matching is exact and case-sensitive on the
lowercase keys — the capitalized spellings of the spec are rejected with
the InvalidArgument error, and a call produces a result exactly when the
key is one of the three lowercase strings. -/
theorem C9_case_sensitive (d t : ℚ) (s : String) :
    simulate_growth_energy d t capMediumKey = Except.error errMsg ∧
    simulate_growth_energy d t capHighKey = Except.error errMsg ∧
    (producesResult (simulate_growth_energy d t s) = true ↔
      (s = lowKey ∨ s = mediumKey ∨ s = highKey)) := by
  refine ⟨simGE_invalid_eval d t capMediumKey (by decide) (by decide) (by decide),
    simGE_invalid_eval d t capHighKey (by decide) (by decide) (by decide), ?_⟩
  by_cases h1 : s = lowKey
  · subst h1
    simp [simGE_low_eval, producesResult]
  · by_cases h2 : s = mediumKey
    · subst h2
      simp [simGE_medium_eval, producesResult]
    · by_cases h3 : s = highKey
      · subst h3
        simp [simGE_high_eval, producesResult]
      · simp [simGE_invalid_eval d t s h1 h2 h3, producesResult, h1, h2, h3]

/-- Claim C10: climate-control energy is symmetric about the ideal
temperature — at temperatures `25 + x` and `25 - x` the base, climate and
total energies agree, for every duration, offset and valid density. -/
theorem C10_symmetric_about_ideal (d x : ℚ) (s : String)
    (rp rn : GrowthEnergyResult)
    (hp : simulate_growth_energy d (25 + x) s = Except.ok rp)
    (hn : simulate_growth_energy d (25 - x) s = Except.ok rn) :
    rp.base_energy_kWh = rn.base_energy_kWh ∧
    rp.climate_control_energy_kWh = rn.climate_control_energy_kWh ∧
    rp.total_energy_kWh = rn.total_energy_kWh := by
  have habs : |25 + x - 25.0| = |25 - x - 25.0| := by
    rw [show (25:ℚ) + x - 25.0 = x by ring, show (25:ℚ) - x - 25.0 = -x by ring, abs_neg]
  by_cases h1 : s = lowKey
  · subst h1
    rw [simGE_low_eval] at hp
    rw [simGE_low_eval] at hn
    injection hp with hp
    injection hn with hn
    subst hp
    subst hn
    refine ⟨rfl, ?_, ?_⟩ <;> rw [habs]
  · by_cases h2 : s = mediumKey
    · subst h2
      rw [simGE_medium_eval] at hp
      rw [simGE_medium_eval] at hn
      injection hp with hp
      injection hn with hn
      subst hp
      subst hn
      refine ⟨rfl, ?_, ?_⟩ <;> rw [habs]
    · by_cases h3 : s = highKey
      · subst h3
        rw [simGE_high_eval] at hp
        rw [simGE_high_eval] at hn
        injection hp with hp
        injection hn with hn
        subst hp
        subst hn
        refine ⟨rfl, ?_, ?_⟩ <;> rw [habs]
      · rw [simGE_invalid_eval d (25 + x) s h1 h2 h3] at hp
        exact Except.noConfusion hp

/-- Result of `simulate_growth_energy 10 20 high`: same energies as at
temperature 30, since both are 5 degrees from the ideal. -/
def resHighT20 : GrowthEnergyResult :=
  { total_energy_kWh := 169
    base_energy_kWh := 130
    climate_control_energy_kWh := 39
    growth_duration_days := 10
    adjusted_growth_duration_days := 13
    temperature_celsius := 20
    substrate_density := highKey }

/-- Concrete high-density evaluation at temperature 20, for the C10 witness. -/
theorem simGE_highT20_concrete :
    simulate_growth_energy 10 20 highKey = Except.ok resHighT20 := by
  rw [simGE_high_eval]
  norm_num [resHighT20]

/-- Witness for C10 at `d = 10`, `x = 5`, high density: temperatures 30
and 20 give equal energy fields. -/
theorem C10_symmetric_about_ideal_witness :
    simulate_growth_energy 10 (25 + 5) highKey = Except.ok resHigh169 ∧
    simulate_growth_energy 10 (25 - 5) highKey = Except.ok resHighT20 ∧
    (resHigh169.base_energy_kWh = resHighT20.base_energy_kWh ∧
     resHigh169.climate_control_energy_kWh = resHighT20.climate_control_energy_kWh ∧
     resHigh169.total_energy_kWh = resHighT20.total_energy_kWh) := by
  have hp : simulate_growth_energy 10 (25 + 5) highKey = Except.ok resHigh169 := by
    rw [show (25:ℚ) + 5 = 30 by norm_num]
    exact simGE_high_concrete
  have hn : simulate_growth_energy 10 (25 - 5) highKey = Except.ok resHighT20 := by
    rw [show (25:ℚ) - 5 = 20 by norm_num]
    exact simGE_highT20_concrete
  exact ⟨hp, hn, C10_symmetric_about_ideal 10 5 highKey resHigh169 resHighT20 hp hn⟩
